import Mathlib

/-!
Verification of the GPT-Neo mesh-tensorflow model code
(src/models/gpt2/gpt2.py and src/model_fns.py) against its
natural-language specification.

Tensors are embedded as functions from finite index types into the
rationals; transcendental primitives (exp, gelu) that the source calls
into the numerics library for are abstracted as function parameters,
since every property proved here holds for any choice of them.
-/

namespace GPTNeo

/-- Estimator mode keys: tf.estimator.ModeKeys.{TRAIN, EVAL, PREDICT}. -/
inductive Mode
  | train
  | eval
  | predict
deriving DecidableEq

/-- Embedding of model_fns.py line 66:
batch_size = 1 if mode == tf.estimator.ModeKeys.PREDICT else params["train_batch_size"]. -/
def batch_size_for (mode : Mode) (train_batch_size : ℕ) : ℕ :=
  if mode = Mode.predict then 1 else train_batch_size

/-- Incremental-decoding session state for one attention layer, embedding the
mtf transformer Context as used by gpt2.py: a mode string, the current decode
position, and the cached key/value tensors returned by context.get_states(2).
The sequence dimension has extent s; batch, head and feature indices are
pointwise-parallel in the splice and are elided. -/
structure IncrementalContext (s : ℕ) where
  mode : String
  position : ℤ
  cached_k : Fin s → ℚ
  cached_v : Fin s → ℚ

/-- Embedding of gpt2.py is_incremental_inference: context is not None and
context.mode equals the string incremental. -/
def is_incremental_inference {s : ℕ} (context : Option (IncrementalContext s)) : Bool :=
  match context with
  | none => false
  | some c => c.mode = "incremental"

/-- Embedding of mtf.one_hot(index, dim_seq): 1 at the given index, 0
elsewhere (an out-of-range index yields the all-zero vector, as in tf). -/
def one_hot (index : ℤ) (s : ℕ) : Fin s → ℚ :=
  fun p => if (p : ℤ) = index then 1 else 0

/-- Embedding of gpt2.py attn, lines 164-170: the key/value/bias actually
used by the attention computation.  In incremental mode the freshly
computed k, v are spliced into the cached old_k, old_v through the one-hot
mask at context.position - 1 and the bias is set to None; otherwise k, v
and the bias pass through unchanged. -/
def attn_kv_bias {s : ℕ} {β : Type} (context : Option (IncrementalContext s))
    (k v : Fin s → ℚ) (bias : Option β) :
    (Fin s → ℚ) × (Fin s → ℚ) × Option β :=
  match context with
  | some c =>
    if c.mode = "incremental" then
      let oh := one_hot (c.position - 1) s
      let inv_oh := fun p => 1 - oh p
      (fun p => c.cached_k p * inv_oh p + k p * oh p,
       fun p => c.cached_v p * inv_oh p + v p * oh p,
       none)
    else (k, v, bias)
  | none => (k, v, bias)

/-- Embedding of mtf.softmax over the feature dimension, as applied to the
queries in linear_attention; mexp abstracts the exponential primitive, which
the source delegates to the numerics library. -/
def softmax_feat {d : ℕ} (mexp : ℚ → ℚ) (x : Fin d → ℚ) : Fin d → ℚ :=
  fun f => mexp (x f) / ∑ g, mexp (x g)

/-- Embedding of mtf.elu: x for positive x, exp(x) - 1 otherwise. -/
def elu (mexp : ℚ → ℚ) (x : ℚ) : ℚ :=
  if 0 < x then x else mexp x - 1

/-- Embedding of gpt2.py linear_attention (lines 75-91).  Queries pass
through softmax over the feature dimension, keys through elu(x)+1; the
cumulative sum over the sequence dimension of the outer product of keys and
values is divided by the cumulative sum of keys plus epsilon and contracted
against the queries.  Batch and head indices are pointwise-parallel and are
elided; mtf.cumsum is the inclusive cumulative sum, embedded as a sum over
Finset.Iic. -/
def linear_attention {n d e : ℕ} (mexp : ℚ → ℚ) (epsilon : ℚ)
    (q k : Fin n → Fin d → ℚ) (v : Fin n → Fin e → ℚ) : Fin n → Fin e → ℚ :=
  let qs : Fin n → Fin d → ℚ := fun i => softmax_feat mexp (q i)
  let ks : Fin n → Fin d → ℚ := fun i f => elu mexp (k i f) + 1
  let cumulative_k : Fin n → Fin d → ℚ := fun i f => ∑ t ∈ Finset.Iic i, ks t f
  let cumulative_context : Fin n → Fin d → Fin e → ℚ :=
    fun i f g => ∑ t ∈ Finset.Iic i, ks t f * v t g
  let divided : Fin n → Fin d → Fin e → ℚ :=
    fun i f g => cumulative_context i f g / (cumulative_k i f + epsilon)
  fun i g => ∑ f, qs i f * divided i f g

/-- Embedding of gpt2.py rezero (lines 32-35): multiply by the learned
scalar gate g. -/
def rezero_gate {m : ℕ} (g : ℚ) (x : Fin m → ℚ) : Fin m → ℚ :=
  fun i => g * x i

/-- Embedding of the pre_residual_fn selected in block (line 328):
rezero when use_rezero, the identity otherwise. -/
def pre_residual_fn (use_rezero : Bool) (g : ℚ) {m : ℕ} (a : Fin m → ℚ) :
    Fin m → ℚ :=
  if use_rezero then rezero_gate g a else a

/-- Embedding of the attention sub-layer half of gpt2.py block (lines
330-340): when the configured attention type of the layer is not "none" the
attention branch computes attn on the prenormed input, otherwise a = x;
the branch output then enters the residual add x + pre_residual_fn(a).
The result is the value handed to the second (feed-forward) half of the
block.  prenorm and attn_f abstract the prenorm chosen by the flags and
the attention computation of this layer. -/
def block_attn_sublayer (attention_type : String) (use_rezero : Bool) (g1 : ℚ)
    {m : ℕ} (prenorm attn_f : (Fin m → ℚ) → (Fin m → ℚ))
    (x : Fin m → ℚ) : Fin m → ℚ :=
  let a := if attention_type ≠ "none" then attn_f (prenorm x) else x
  fun i => x i + pre_residual_fn use_rezero g1 a i

/-- Embedding of mtf.reduce_mean over all dimensions of a [batch, sequence]
tensor: the sum of the entries divided by their count. -/
def reduce_mean {b s : ℕ} (x : Fin b → Fin s → ℚ) : ℚ :=
  (∑ i, ∑ j, x i j) / (b * s)

/-- Embedding of gpt2.py model lines 496-500: for non-causal training the
per-position loss is replaced by zero wherever the target label equals the
configured padding id (params.get with key padding_id, default 0); for
causal training loss_batch passes through unchanged. -/
def mask_padding_loss {b s : ℕ} (causal : Bool) (padding_id : Option ℤ)
    (labels : Fin b → Fin s → ℤ) (loss_batch : Fin b → Fin s → ℚ) :
    Fin b → Fin s → ℚ :=
  if causal then loss_batch
  else fun i j => if labels i j ≠ padding_id.getD 0 then loss_batch i j else 0

/-- Embedding of the aux_losses accumulator of gpt2.py model (lines
453-472): a scalar starting at zero to which each layer of the block loop
adds its auxiliary loss in turn. -/
def aux_losses_total (aux : List ℚ) : ℚ :=
  aux.foldl (· + ·) 0

/-- Embedding of the TRAIN-mode tail of gpt2.py model (lines 487-506):
apply the non-causal padding mask to the raw per-position cross-entropy
tensor, take the mean, add the accumulated auxiliary losses and divide by
the configured number of microbatches.  Returns the scalar loss together
with the final loss_batch tensor; model returns both. -/
def model_train_loss {b s : ℕ} (causal : Bool) (padding_id : Option ℤ)
    (num_microbatches : ℕ) (labels : Fin b → Fin s → ℤ)
    (loss_batch0 : Fin b → Fin s → ℚ) (aux : List ℚ) :
    ℚ × (Fin b → Fin s → ℚ) :=
  let loss_batch := mask_padding_loss causal padding_id labels loss_batch0
  let loss := reduce_mean loss_batch
  let loss2 := loss + aux_losses_total aux
  let loss3 := loss2 / num_microbatches
  (loss3, loss_batch)

/-- Embedding of context.record_new_states applied to the pair of the new
key and value tensors, guarded by exists(context) (gpt2.py lines 172-173):
when a context is present the (key, value) pair is appended to its
recorded states; with no context nothing happens. -/
def record_new_states {α : Type} (context : Option (List α)) (kv : α) :
    Option (List α) :=
  context.map (fun states => states ++ [kv])

/-- Embedding of the per-layer behaviour of the block loop of gpt2.py model
(lines 460-472) combined with attn (lines 164-270): a layer whose
configured attention type is "none" skips attn entirely; any other layer
calls attn, which records its (key, value) pair into the context when one
is present and then dispatches on the attention type, raising
NotImplementedError for a type outside local/global/linear (a record made
just before the raise is discarded with the failed pass).  kvs gives the
(key, value) pair computed by each layer from its input. -/
def run_blocks {α : Type} (kvs : ℕ → α) :
    ℕ → List String → Option (List α) → Except String (Option (List α))
  | _, [], context => .ok context
  | layer, t :: rest, context =>
    if t ≠ "none" then
      let context2 := record_new_states context (kvs layer)
      if t = "local" ∨ t = "global" ∨ t = "linear" then
        run_blocks kvs (layer + 1) rest context2
      else .error ("Unknown attention type " ++ t ++ "!")
    else run_blocks kvs (layer + 1) rest context

/-- Expected cache contents: one (key, value) entry, in layer order, for
each layer at or after index i whose attention type is not "none". -/
def recorded_spec {α : Type} (kvs : ℕ → α) : ℕ → List String → List α
  | _, [] => []
  | i, t :: rest =>
    if t ≠ "none" then kvs i :: recorded_spec kvs (i + 1) rest
    else recorded_spec kvs (i + 1) rest

/-- Whether an Except value is a raised error. -/
def raisesError {ε α : Type} : Except ε α → Bool
  | .error _ => true
  | .ok _ => false

/-- Variable dtype triple (master, slice and activation precisions),
carried opaquely: only its presence or absence at a call site matters for
the properties proved here. -/
structure VariableDType where
  master_dtype : String
  slice_dtype : String
  activation_dtype : String

/-- Embedding of mtf.layers.dense as invoked by gpt2.py linear: an affine
map given by a kernel and a bias. -/
def dense {nIn nOut : ℕ} (w : Fin nIn → Fin nOut → ℚ) (bias : Fin nOut → ℚ)
    (x : Fin nIn → ℚ) : Fin nOut → ℚ :=
  fun o => (∑ i, x i * w i o) + bias o

/-- Embedding of a call to gpt2.py linear (lines 94-108).  variable_dtype
is a required keyword-only parameter of linear with no default value: a
call site that does not supply it (variable_dtype = none here) raises
TypeError before the body runs; otherwise the dense affine map is
computed. -/
def linear_call {nIn nOut : ℕ} (variable_dtype : Option VariableDType)
    (w : Fin nIn → Fin nOut → ℚ) (bias : Fin nOut → ℚ) (x : Fin nIn → ℚ) :
    Except String (Fin nOut → ℚ) :=
  match variable_dtype with
  | none =>
    .error "TypeError: linear() missing 1 required keyword-only argument: variable_dtype"
  | some _ => .ok (dense w bias x)

/-- Embedding of gpt2.py mlp_glu (lines 298-309): the hidden projection is
computed by linear called WITHOUT the required variable_dtype keyword
argument (line 301); the result would then be split into two equal halves
h and gate along the last dimension, h multiplied elementwise by
gelu(gate), and projected back to the input width by a second linear call
that does pass variable_dtype.  gelu abstracts the transcendental mtf.gelu
primitive. -/
def mlp_glu {m hHalf : ℕ} (gelu : ℚ → ℚ) (variable_dtype : Option VariableDType)
    (w_fc : Fin m → Fin (hHalf + hHalf) → ℚ) (b_fc : Fin (hHalf + hHalf) → ℚ)
    (w_proj : Fin hHalf → Fin m → ℚ) (b_proj : Fin m → ℚ)
    (x : Fin m → ℚ) : Except String (Fin m → ℚ) := do
  let h ← linear_call none w_fc b_fc x
  let hHead : Fin hHalf → ℚ := fun i => h (Fin.castAdd hHalf i)
  let gate : Fin hHalf → ℚ := fun i => h (Fin.natAdd hHalf i)
  let hGated : Fin hHalf → ℚ := fun i => hHead i * gelu (gate i)
  let h2 ← linear_call variable_dtype w_proj b_proj hGated
  return h2

/-- Embedding of a Python call to gpt2.model (gpt2.py line 379), whose
variable_dtype parameter is required and has no default value: a call
site that does not supply it raises TypeError before the model body runs;
a call that does supply it builds the graph of every block (run_blocks,
raising on an unknown attention type). -/
def gpt2_model_call (variable_dtype : Option VariableDType)
    (attention_types : List String) : Except String Unit :=
  match variable_dtype with
  | none =>
    .error "TypeError: model() missing 1 required positional argument: variable_dtype"
  | some _ =>
    match run_blocks (fun _ => ()) 0 attention_types none with
    | .error e => .error e
    | .ok _ => .ok ()

/-- Embedding of the serialized_fn closure of model_fns.py model_fn (lines
149-154): when the configured model name equals GPT2 it calls
gpt2.model(mtf_features, other_features, params, mesh) — line 153, which
omits the required variable_dtype argument of gpt2.model — and wraps the
results in a dict; for any other model name it has no else branch and
returns None without raising. -/
def serialized_fn (model_name : String) (attention_types : List String) :
    Except String (Option Unit) :=
  if model_name = "GPT2" then
    match gpt2_model_call none attention_types with
    | .error e => .error e
    | .ok _ => .ok (some ())
  else .ok none

/-- Embedding of the consumption of the serialized_fn output at
model_fns.py lines 157-159: mtf.serialize_training_step invokes
serialized_fn while building the graph and its output dict is subscripted
(output_dict with key loss); an exception from serialized_fn propagates,
and a None output raises TypeError when subscripted. -/
def serialize_training_step_consume (r : Except String (Option Unit)) :
    Except String Unit :=
  match r with
  | .error e => .error e
  | .ok (some _) => .ok ()
  | .ok none => .error "TypeError: NoneType object is not subscriptable"

/-- Embedding of the TRAIN/EVAL graph-construction dispatch of
model_fns.py model_fn (lines 148-169): with more than one microbatch the
serialized_fn output is consumed by mtf.serialize_training_step; with one
microbatch, a GPT2 model name calls gpt2.model directly (line 167, again
omitting the required variable_dtype argument) and any other model name
raises an explicit Exception (line 169). -/
def train_eval_build (model_name : String) (num_microbatches : ℕ)
    (attention_types : List String) : Except String Unit :=
  if 1 < num_microbatches then
    serialize_training_step_consume (serialized_fn model_name attention_types)
  else
    if model_name = "GPT2" then gpt2_model_call none attention_types
    else .error (model_name ++ " is not a valid model - please select from GPT2")

/-- Modelled from the spec: the PREDICT branch of model_fn (model_fns.py
lines 103-136) calls sample_autoregressive, whose source (sample.py) is
not under src/.  Per the spec, PREDICT repeatedly invokes the model to
build the sampling graph, and configuration errors (unknown model name,
invalid attention type) are fatal and reported immediately at graph-build
time. -/
def predict_build (model_name : String) (attention_types : List String) :
    Except String Unit :=
  if model_name = "GPT2" then
    match run_blocks (fun _ => ()) 0 attention_types (some []) with
    | .error e => .error e
    | .ok _ => .ok ()
  else .error (model_name ++ " is not a valid model")

/-- Graph construction across all three estimator modes: the PREDICT
branch of model_fn returns before the TRAIN/EVAL dispatch is reached. -/
def model_fn_build (mode : Mode) (model_name : String)
    (num_microbatches : ℕ) (attention_types : List String) :
    Except String Unit :=
  if mode = Mode.predict then predict_build model_name attention_types
  else train_eval_build model_name num_microbatches attention_types

/-- Embedding of tf.reduce_mean over the exported per-example loss list. -/
def list_mean (xs : List ℚ) : ℚ :=
  xs.sum / xs.length

/-- Embedding of the perplexity metric of model_fns.py (lines 262-266,
the inner metric function of EVAL mode): mean the exported loss_batch
tensor, divide by the configured number of microbatches and exponentiate;
tf.metrics.mean of the resulting scalar reports that scalar.  mexp
abstracts tf.exp. -/
def perplexity_metric (mexp : ℚ → ℚ) (tf_loss_batch : List ℚ)
    (num_microbatches : ℕ) : ℚ :=
  let loss := list_mean tf_loss_batch
  let loss2 := loss / num_microbatches
  let perplexity := mexp loss2
  perplexity

end GPTNeo

namespace GPTNeo

/-- C1: for an attention layer invoked with an IncrementalContext in
incremental mode, the key and value tensors used by attention equal the
cached tensors at every sequence position except position - 1, where they
equal the freshly computed key/value, and the additive bias mask passed to
attention is disabled (None). -/
theorem attn_incremental_kv_splice {s : ℕ} (c : IncrementalContext s)
    (k v : Fin s → ℚ) (bias : Option Unit) (h : c.mode = "incremental") :
    (∀ p, (attn_kv_bias (some c) k v bias).1 p =
        if (p : ℤ) = c.position - 1 then k p else c.cached_k p) ∧
    (∀ p, (attn_kv_bias (some c) k v bias).2.1 p =
        if (p : ℤ) = c.position - 1 then v p else c.cached_v p) ∧
    (attn_kv_bias (some c) k v bias).2.2 = none := by
  refine ⟨fun p => ?_, fun p => ?_, ?_⟩
  · simp only [attn_kv_bias, one_hot, h, if_true]
    by_cases hp : (p : ℤ) = c.position - 1 <;> simp [hp]
  · simp only [attn_kv_bias, one_hot, h, if_true]
    by_cases hp : (p : ℤ) = c.position - 1 <;> simp [hp]
  · simp only [attn_kv_bias, h, if_true]

/-- Witness for C1 at a concrete input: sequence length 2, position 1,
cached keys all 3, cached values all 5, fresh key 7, fresh value 11. -/
theorem attn_incremental_kv_splice_witness :
    (∀ p : Fin 2,
      (attn_kv_bias (some ⟨"incremental", 1, fun _ => 3, fun _ => 5⟩)
        (fun _ => 7) (fun _ => 11) (some ())).1 p =
        if (p : ℤ) = 1 - 1 then 7 else 3) ∧
    (∀ p : Fin 2,
      (attn_kv_bias (some ⟨"incremental", 1, fun _ => 3, fun _ => 5⟩)
        (fun _ => 7) (fun _ => 11) (some ())).2.1 p =
        if (p : ℤ) = 1 - 1 then 11 else 5) ∧
    (attn_kv_bias (some (⟨"incremental", 1, fun _ => 3, fun _ => 5⟩ :
        IncrementalContext 2)) (fun _ => 7) (fun _ => 11) (some ())).2.2 = none :=
  attn_incremental_kv_splice ⟨"incremental", 1, fun _ => 3, fun _ => 5⟩
    (fun _ => 7) (fun _ => 11) (some ()) rfl

/-- C10: in PREDICT mode the batch dimension is constructed with size 1
regardless of the configured train_batch_size; in TRAIN and EVAL modes it
has size train_batch_size. -/
theorem batch_size_predict_is_one (train_batch_size : ℕ) :
    batch_size_for Mode.predict train_batch_size = 1 ∧
    batch_size_for Mode.train train_batch_size = train_batch_size ∧
    batch_size_for Mode.eval train_batch_size = train_batch_size := by
  refine ⟨rfl, ?_, ?_⟩ <;> simp [batch_size_for]

/-- C2: linear attention is causal.  For value tensors v and vAlt that agree
at all sequence positions at or before i (so they differ only at positions
after i), with the same queries and keys, the output of linear_attention at
position i is the same. -/
theorem linear_attention_causal {n d e : ℕ} (mexp : ℚ → ℚ) (epsilon : ℚ)
    (q k : Fin n → Fin d → ℚ) (v vAlt : Fin n → Fin e → ℚ) (i : Fin n)
    (h : ∀ t, t ≤ i → v t = vAlt t) :
    ∀ g, linear_attention mexp epsilon q k v i g =
        linear_attention mexp epsilon q k vAlt i g := by
  intro g
  simp only [linear_attention]
  refine Finset.sum_congr rfl fun f _ => ?_
  have hcc : (∑ t ∈ Finset.Iic i, (elu mexp (k t f) + 1) * v t g)
      = ∑ t ∈ Finset.Iic i, (elu mexp (k t f) + 1) * vAlt t g :=
    Finset.sum_congr rfl fun t ht => by rw [h t (Finset.mem_Iic.mp ht)]
  rw [hcc]

/-- Witness for C2 at a concrete input: sequence length 2, one feature,
i = 0, values agreeing at position 0 and differing at position 1. -/
theorem linear_attention_causal_witness :
    linear_attention (fun x => x) (1 / 1000000)
      (fun (_ : Fin 2) (_ : Fin 1) => (0 : ℚ)) (fun _ _ => (0 : ℚ))
      (fun t (_ : Fin 1) => if t = (0 : Fin 2) then (0 : ℚ) else 7) 0 0 =
    linear_attention (fun x => x) (1 / 1000000)
      (fun (_ : Fin 2) (_ : Fin 1) => (0 : ℚ)) (fun _ _ => (0 : ℚ))
      (fun (_ : Fin 2) (_ : Fin 1) => (0 : ℚ)) 0 0 :=
  linear_attention_causal (fun x => x) (1 / 1000000) _ _ _ _ 0
    (fun t ht => by
      have ht0 : t = 0 := le_antisymm ht (Fin.zero_le t)
      subst ht0
      funext u
      simp) 0

/-- C3 counterexample: with attention type "none", rezero disabled and
block input x = 1 (embedding width 1), the value fed into the feed-forward
half of the block is 2, not the block input x unchanged — the skipped
attention branch returns x itself and the residual add then doubles it. -/
theorem block_none_not_identity :
    block_attn_sublayer "none" false 0 (m := 1) id id (fun _ => 1) ≠
      (fun _ => (1 : ℚ)) := by
  intro hcontra
  have h0 := congrFun hcontra 0
  simp [block_attn_sublayer, pre_residual_fn] at h0

/-- C3 amended: for a layer whose configured attention type is "none", the
attention computation is skipped entirely (the result does not depend on
the attention function or the prenorm), the attention branch output a
equals the block input x, and the value fed into the feed-forward half is
x + pre_residual_fn(x) — twice x when rezero is disabled, x + g1 * x when
rezero is enabled — rather than x unchanged. -/
theorem block_none_skips_attention (use_rezero : Bool) (g1 : ℚ) {m : ℕ}
    (prenorm attn_f : (Fin m → ℚ) → (Fin m → ℚ)) (x : Fin m → ℚ) :
    block_attn_sublayer "none" use_rezero g1 prenorm attn_f x =
      fun i => x i + pre_residual_fn use_rezero g1 x i := by
  simp [block_attn_sublayer]

/-- Folding addition from zero over the auxiliary losses is their sum. -/
theorem aux_losses_total_eq_sum (aux : List ℚ) : aux_losses_total aux = aux.sum := by
  have key : ∀ (l : List ℚ) (a : ℚ), List.foldl (· + ·) a l = a + l.sum := by
    intro l
    induction l with
    | nil => intro a; simp
    | cons x xs ih =>
      intro a
      simp only [List.foldl_cons, List.sum_cons, ih]
      ring
  simpa [aux_losses_total] using key aux 0

/-- C4: in TRAIN mode the returned scalar loss equals the mean over batch
and sequence of the per-position loss_batch tensor, plus the sum of the
per-layer auxiliary losses, divided by the configured number of
microbatches. -/
theorem model_train_loss_formula {b s : ℕ} (causal : Bool) (padding_id : Option ℤ)
    (num_microbatches : ℕ) (labels : Fin b → Fin s → ℤ)
    (loss_batch0 : Fin b → Fin s → ℚ) (aux : List ℚ) :
    (model_train_loss causal padding_id num_microbatches labels loss_batch0 aux).1 =
      (reduce_mean
          (model_train_loss causal padding_id num_microbatches labels loss_batch0 aux).2
        + aux.sum) / num_microbatches := by
  simp only [model_train_loss, aux_losses_total_eq_sum]

/-- C6: in TRAIN mode with causal = false, every position whose target
label equals the configured padding id (default 0) has its per-position
loss replaced by zero in the loss_batch tensor the mean is taken over,
while other positions keep their loss; with causal = true no zeroing
occurs. -/
theorem model_train_loss_padding_mask {b s : ℕ} (padding_id : Option ℤ)
    (num_microbatches : ℕ) (labels : Fin b → Fin s → ℤ)
    (loss_batch0 : Fin b → Fin s → ℚ) (aux : List ℚ) :
    (∀ i j, labels i j = padding_id.getD 0 →
      (model_train_loss false padding_id num_microbatches labels
        loss_batch0 aux).2 i j = 0) ∧
    (∀ i j, labels i j ≠ padding_id.getD 0 →
      (model_train_loss false padding_id num_microbatches labels
        loss_batch0 aux).2 i j = loss_batch0 i j) ∧
    (model_train_loss true padding_id num_microbatches labels
        loss_batch0 aux).2 = loss_batch0 := by
  refine ⟨fun i j hij => ?_, fun i j hij => ?_, rfl⟩ <;>
    simp [model_train_loss, mask_padding_loss, hij]

/-- Witness for C6 at concrete inputs: batch 1, sequence 1, default
padding id; a padding label zeroes the loss, a non-padding label keeps
it. -/
theorem model_train_loss_padding_mask_witness :
    (model_train_loss false none 1 (fun (_ : Fin 1) (_ : Fin 1) => (0 : ℤ))
      (fun _ _ => (5 : ℚ)) []).2 0 0 = 0 ∧
    (model_train_loss false none 1 (fun (_ : Fin 1) (_ : Fin 1) => (1 : ℤ))
      (fun _ _ => (5 : ℚ)) []).2 0 0 = 5 :=
  ⟨(model_train_loss_padding_mask none 1 _ _ []).1 0 0 rfl,
   (model_train_loss_padding_mask none 1 _ _ []).2.1 0 0 (by decide)⟩

/-- Every layer list of valid attention types drives run_blocks to append
exactly the non-"none" layers to the initial cache, for any starting layer
index. -/
theorem run_blocks_ok_aux {α : Type} (kvs : ℕ → α) (ats : List String) :
    ∀ (i : ℕ) (init : List α),
      (∀ t ∈ ats, t = "local" ∨ t = "global" ∨ t = "linear" ∨ t = "none") →
      run_blocks kvs i ats (some init) =
        .ok (some (init ++ recorded_spec kvs i ats)) := by
  induction ats with
  | nil => intro i init _; simp [run_blocks, recorded_spec]
  | cons t rest ih =>
    intro i init h
    have ht := h t (List.mem_cons_self t rest)
    have hrest : ∀ u ∈ rest, u = "local" ∨ u = "global" ∨ u = "linear" ∨ u = "none" :=
      fun u hu => h u (List.mem_cons_of_mem t hu)
    by_cases hnone : t = "none"
    · subst hnone
      simp only [run_blocks, recorded_spec]
      rw [if_neg (by simp), if_neg (by simp)]
      exact ih (i + 1) init hrest
    · have hvalid : t = "local" ∨ t = "global" ∨ t = "linear" := by tauto
      simp only [run_blocks, recorded_spec]
      rw [if_pos hnone, if_pos hnone, if_pos hvalid]
      have hrec : record_new_states (some init) (kvs i) = some (init ++ [kvs i]) := rfl
      rw [hrec, ih (i + 1) (init ++ [kvs i]) hrest]
      simp

/-- C5: in a forward pass with a non-None context and valid per-layer
attention types, every layer whose attention type is not "none" records
exactly one (key, value) pair into the context and a "none" layer records
nothing, so the final cache is in one-to-one, order-preserving
correspondence with the recording attention layers. -/
theorem run_blocks_cache_correspondence {α : Type} (kvs : ℕ → α)
    (ats : List String)
    (h : ∀ t ∈ ats, t = "local" ∨ t = "global" ∨ t = "linear" ∨ t = "none") :
    run_blocks kvs 0 ats (some []) = .ok (some (recorded_spec kvs 0 ats)) := by
  simpa using run_blocks_ok_aux kvs ats 0 [] h

/-- Witness for C5 at a concrete input: three layers global/none/linear
leave exactly the caches of layers 0 and 2, in order. -/
theorem run_blocks_cache_correspondence_witness :
    run_blocks (fun i => i) 0 ["global", "none", "linear"] (some []) =
      .ok (some (recorded_spec (fun i => i) 0 ["global", "none", "linear"])) :=
  run_blocks_cache_correspondence (fun i => i) ["global", "none", "linear"]
    (by decide)

/-- C7: the gated-linear feed-forward variant crashes instead of
computing its value — the first hidden projection calls linear without the
required keyword-only variable_dtype argument, so for every input the
mlp_glu path raises TypeError at graph-build time rather than producing
the split/gate/project result. -/
theorem mlp_glu_raises_type_error {m hHalf : ℕ} (gelu : ℚ → ℚ)
    (variable_dtype : Option VariableDType)
    (w_fc : Fin m → Fin (hHalf + hHalf) → ℚ) (b_fc : Fin (hHalf + hHalf) → ℚ)
    (w_proj : Fin hHalf → Fin m → ℚ) (b_proj : Fin m → ℚ) (x : Fin m → ℚ) :
    mlp_glu gelu variable_dtype w_fc b_fc w_proj b_proj x =
      .error "TypeError: linear() missing 1 required keyword-only argument: variable_dtype" :=
  rfl

/-- A layer list containing an attention type outside
local/global/linear/none drives run_blocks to an error, for any starting
index and context. -/
theorem run_blocks_error_aux {α : Type} (kvs : ℕ → α) (ats : List String) :
    ∀ (i : ℕ) (context : Option (List α)),
      (∃ t ∈ ats, t ≠ "local" ∧ t ≠ "global" ∧ t ≠ "linear" ∧ t ≠ "none") →
      raisesError (run_blocks kvs i ats context) = true := by
  induction ats with
  | nil =>
    rintro i c ⟨t, ht, -⟩
    simp at ht
  | cons t rest ih =>
    rintro i c ⟨u, hu, hbad⟩
    rcases List.mem_cons.mp hu with rfl | hmem
    · obtain ⟨h1, h2, h3, h4⟩ := hbad
      simp only [run_blocks]
      rw [if_pos h4, if_neg (by tauto)]
      rfl
    · by_cases hnone : t = "none"
      · subst hnone
        simp only [run_blocks]
        rw [if_neg (by simp)]
        exact ih (i + 1) c ⟨u, hmem, hbad⟩
      · by_cases hvalid : t = "local" ∨ t = "global" ∨ t = "linear"
        · simp only [run_blocks]
          rw [if_pos hnone, if_pos hvalid]
          exact ih (i + 1) _ ⟨u, hmem, hbad⟩
        · simp only [run_blocks]
          rw [if_pos hnone, if_neg hvalid]
          rfl

/-- In TRAIN/EVAL the graph-construction dispatch raises for every
configuration: a GPT2 model name reaches a gpt2.model call that omits the
required variable_dtype argument (TypeError), an unknown model name either
raises the explicit Exception (one microbatch) or returns None from
serialized_fn, which raises TypeError when consumed by
mtf.serialize_training_step (more than one microbatch). -/
theorem train_eval_build_raises (model_name : String) (num_microbatches : ℕ)
    (attention_types : List String) :
    raisesError (train_eval_build model_name num_microbatches attention_types)
      = true := by
  simp only [train_eval_build]
  by_cases h1 : 1 < num_microbatches
  · rw [if_pos h1]
    by_cases hname : model_name = "GPT2" <;>
      simp [serialized_fn, hname, gpt2_model_call,
        serialize_training_step_consume, raisesError]
  · rw [if_neg h1]
    by_cases hname : model_name = "GPT2" <;>
      simp [hname, gpt2_model_call, raisesError]

/-- C8: for every invocation with an unknown model name or an attention
type outside global/local/linear/none for some layer, graph construction
fails with a raised error, in every mode and for every microbatch count.
In TRAIN/EVAL the unknown-name raise is the explicit Exception for one
microbatch and the TypeError from consuming the None serialized_fn output
for more, while a GPT2 model name always raises the TypeError from the
gpt2.model call sites that omit the required variable_dtype argument; the
PREDICT branch is modelled from the spec, since sample.py is not under
src/. -/
theorem model_fn_build_config_errors (mode : Mode) (model_name : String)
    (num_microbatches : ℕ) (attention_types : List String)
    (h : model_name ≠ "GPT2" ∨
      ∃ t ∈ attention_types,
        t ≠ "local" ∧ t ≠ "global" ∧ t ≠ "linear" ∧ t ≠ "none") :
    raisesError (model_fn_build mode model_name num_microbatches attention_types)
      = true := by
  cases mode with
  | predict =>
    have hmode : (Mode.predict = Mode.predict) := rfl
    simp only [model_fn_build, if_pos hmode]
    rcases h with hname | hbad
    · simp only [predict_build]
      rw [if_neg hname]
      rfl
    · by_cases hname : model_name = "GPT2"
      · simp only [predict_build]
        rw [if_pos hname]
        have herr := run_blocks_error_aux (fun _ => ())
          attention_types 0 (some []) hbad
        cases hrb : run_blocks (fun _ => ()) 0 attention_types (some []) with
        | error e => simp [raisesError]
        | ok o => rw [hrb] at herr; simp [raisesError] at herr
      · simp only [predict_build]
        rw [if_neg hname]
        rfl
  | train =>
    simp only [model_fn_build]
    rw [if_neg (by simp)]
    exact train_eval_build_raises model_name num_microbatches attention_types
  | eval =>
    simp only [model_fn_build]
    rw [if_neg (by simp)]
    exact train_eval_build_raises model_name num_microbatches attention_types

/-- Witness for C8 at concrete inputs: an unknown model name with two
microbatches in TRAIN, a bogus attention type with the GPT2 model in EVAL,
and a bogus attention type in PREDICT all raise at graph construction. -/
theorem model_fn_build_config_errors_witness :
    raisesError (model_fn_build Mode.train "WrongModel" 2 ["global"]) = true ∧
    raisesError (model_fn_build Mode.eval "GPT2" 1 ["bogus"]) = true ∧
    raisesError (model_fn_build Mode.predict "GPT2" 1 ["bogus"]) = true :=
  ⟨model_fn_build_config_errors Mode.train "WrongModel" 2 ["global"]
      (Or.inl (by decide)),
   model_fn_build_config_errors Mode.eval "GPT2" 1 ["bogus"]
      (Or.inr ⟨"bogus", by decide⟩),
   model_fn_build_config_errors Mode.predict "GPT2" 1 ["bogus"]
      (Or.inr ⟨"bogus", by decide⟩)⟩

/-- C9: the EVAL-mode perplexity metric equals the exponential of the mean
of the exported per-example loss tensor divided by the configured number
of microbatches, for any exponential primitive. -/
theorem perplexity_metric_formula (mexp : ℚ → ℚ) (tf_loss_batch : List ℚ)
    (num_microbatches : ℕ) :
    perplexity_metric mexp tf_loss_batch num_microbatches =
      mexp (list_mean tf_loss_batch / num_microbatches) :=
  rfl

end GPTNeo
